import Mathlib

/-!
Shallow embedding of the configuration resolver in
src/work/AILearning/oai_config.py (class OAIConfig), together with theorems
settling the specification claims about it.

Python dictionaries are modelled as insertion-ordered association lists over
string keys; Python runtime values as the inductive type PyVal; the process
environment as a lookup function; and the external identity library by the
token its bearer-token provider would yield when called.  Methods that may
raise return Except PyErr; methods are given explicit state passing (input
state in, result plus output state) to mirror Python method calls on self.
-/

namespace AILearning

/-- Python runtime values occurring in this program: None, strings, a
zero-argument bearer-token-provider callable, lists, and dictionaries
(insertion-ordered association lists). -/
inductive PyVal where
  | pynone : PyVal
  | str : String → PyVal
  | callable : PyVal
  | list : List PyVal → PyVal
  | dict : List (String × PyVal) → PyVal
deriving Repr

/-- Python exceptions this program can raise when its accessors run. -/
inductive PyErr where
  | keyErr : String → PyErr
  | notSubscriptable : PyErr
  | attrErr : String → PyErr
deriving Repr, DecidableEq

/-- The ambient process environment: the environment-variable map consulted by
os.getenv, plus the token that the external identity library would yield when
the bearer-token-provider callable it hands out is called. -/
structure Env where
  getenv : String → Option String
  bearerToken : String

/-- The optional constructor arguments of OAIConfig.__init__. -/
structure Overrides where
  config_file : Option String
  api_key : Option String
  api_version : Option String
  endpoint_url : Option String
  model_name : Option String
deriving Repr, DecidableEq

/-- Python truthiness of an optional string: None and the empty string are
falsy, every other string is truthy. -/
def truthy : Option String → Bool
  | some s => s ≠ ""
  | none => false

/-- Python expression a or b for optional strings: the left operand when it is
truthy, otherwise the right operand. -/
def strOr (a b : Option String) : Option String :=
  if truthy a then a else b

/-- Python expression a or d where d is a (truthy) string literal default. -/
def pyOrStr (a : Option String) (d : String) : String :=
  match a with
  | some s => if s = "" then d else s
  | none => d

/-- An optional string stored into a Python dictionary: None becomes the value
None, a string stays a string. -/
def ostr : Option String → PyVal
  | some s => .str s
  | none => .pynone

/-- Dictionary lookup as a total function (for stating properties). -/
def dictLookup (d : List (String × PyVal)) (k : String) : Option PyVal :=
  (d.find? (fun p => p.1 == k)).map Prod.snd

/-- Python dictionary subscription d[k]: KeyError when the key is missing. -/
def dictGet (d : List (String × PyVal)) (k : String) : Except PyErr PyVal :=
  match dictLookup d k with
  | some v => .ok v
  | none => .error (.keyErr k)

/-- Python subscription v[k] on an arbitrary value: only dictionaries are
subscriptable by a string key; subscripting None (or any non-dictionary)
raises a TypeError. -/
def subscriptVal (v : PyVal) (k : String) : Except PyErr PyVal :=
  match v with
  | .dict d => dictGet d k
  | _ => .error .notSubscriptable

namespace OAIConfig

/-- The model of azure.identity.get_bearer_token_provider: hands out a
zero-argument callable.  The resolver never stores this callable itself (see
the source of OAIConfig which calls it immediately). -/
def identityProviderCallable : PyVal := PyVal.callable

/-- Calling the bearer-token-provider callable yields the current token from
the external identity library. -/
def callBearerTokenProvider (env : Env) : PyVal := PyVal.str env.bearerToken

/-- OAIConfig._get_bearer_token_provider: builds an interactive-browser
credential, derives a bearer-token-provider callable from it, and returns the
result of calling that callable (the trailing call parentheses in the source)
— i.e. a token value, not the callable. -/
def _get_bearer_token_provider (env : Env) : PyVal :=
  callBearerTokenProvider env

/-- The instance state after __init__: the auth-mode string, and the
oai_config attribute (absent — never assigned — when the mode string matches
no branch of __init__). -/
structure State where
  oai_auth_type : String
  oai_config : Option (List (String × PyVal))
deriving Repr

/-- self.oai_auth_type = os.getenv OPENAI_AUTH_TYPE or the default mode. -/
def resolveAuthType (env : Env) : String :=
  pyOrStr (env.getenv "OPENAI_AUTH_TYPE") "use_azure_openai_api_key"

/-- OAIConfig.__init__: resolves the auth mode, then populates oai_config
according to the branch matching the mode. -/
def init (env : Env) (o : Overrides) : State :=
  let t := resolveAuthType env
  if t = "use_openai_api_key" then
    ⟨t, some [("oai_key", ostr (env.getenv "OPENAI_API_KEY")),
              ("oai_model", ostr (env.getenv "OPENAI_API_MODEL")),
              ("oai_version", ostr (env.getenv "OPENAI_API_VERSION"))]⟩
  else if t = "use_azure_openai_api_key" then
    ⟨t, some [("api_type", .str "azure"),
              ("api_version", ostr (strOr o.api_version (env.getenv "OPENAI_API_VERSION"))),
              ("aoai_key", ostr (strOr o.api_key (env.getenv "AZURE_OPENAI_API_KEY"))),
              ("aoai_endpoint", ostr (strOr o.endpoint_url (env.getenv "AZURE_OPENAI_API_BASE"))),
              ("aoai_deploy", ostr (strOr o.model_name (env.getenv "AZURE_OPENAI_API_DEPLOY")))]⟩
  else if t = "use_azure_managed_identity" then
    ⟨t, some [("api_type", .str "azure"),
              ("api_version", ostr (strOr o.api_version (env.getenv "OPENAI_API_VERSION"))),
              ("azure_ad_token_provider", _get_bearer_token_provider env),
              ("aoai_endpoint", ostr (strOr o.endpoint_url (env.getenv "AZURE_OPENAI_API_BASE"))),
              ("aoai_deploy", ostr (strOr o.model_name (env.getenv "AZURE_OPENAI_API_DEPLOY")))]⟩
  else ⟨t, none⟩

/-- Reading the self.oai_config attribute: AttributeError when __init__ never
assigned it. -/
def oaiConfigAttr (s : State) : Except PyErr (List (String × PyVal)) :=
  match s.oai_config with
  | some d => .ok d
  | none => .error (.attrErr "oai_config")

/-- OAIConfig.get_config: shapes the resolved credentials per mode; returns an
empty dictionary when no mode matches.  The returned state mirrors self after
the call (the method never assigns to self). -/
def get_config (s : State) : Except PyErr PyVal × State :=
  (if s.oai_auth_type = "use_openai_api_key" then do
      let cfg ← oaiConfigAttr s
      let m ← dictGet cfg "oai_model"
      let k ← dictGet cfg "oai_key"
      let v ← dictGet cfg "oai_version"
      pure (.dict [("type", .str "oai"), ("model", m), ("api_key", k), ("api_version", v)])
    else if s.oai_auth_type = "use_azure_openai_api_key" then do
      let cfg ← oaiConfigAttr s
      let e ← dictGet cfg "aoai_endpoint"
      let v ← dictGet cfg "api_version"
      let k ← dictGet cfg "aoai_key"
      let d ← dictGet cfg "aoai_deploy"
      pure (.dict [("type", .str "aoai"),
                   ("aoai_args", .dict [("azure_endpoint", e), ("api_version", v), ("api_key", k)]),
                   ("model", d)])
    else if s.oai_auth_type = "use_azure_managed_identity" then do
      let cfg ← oaiConfigAttr s
      let e ← dictGet cfg "aoai_endpoint"
      let v ← dictGet cfg "api_version"
      let p ← dictGet cfg "azure_ad_token_provider"
      let d ← dictGet cfg "aoai_deploy"
      pure (.dict [("type", .str "aoai"),
                   ("aoai_args", .dict [("azure_endpoint", e), ("api_version", v), ("azure_ad_token_provider", p)]),
                   ("model", d)])
    else pure (.dict []), s)

/-- OAIConfig.get_default_autogen_config: the orchestration-library-shaped
default; falls off the end (returning None) when no mode matches. -/
def get_default_autogen_config (s : State) : Except PyErr PyVal × State :=
  (if s.oai_auth_type = "use_openai_api_key" then do
      let cfg ← oaiConfigAttr s
      let m ← dictGet cfg "oai_model"
      pure (.dict [("model", m)])
    else if s.oai_auth_type = "use_azure_openai_api_key" ∨
            s.oai_auth_type = "use_azure_managed_identity" then do
      let cfg ← oaiConfigAttr s
      let t ← dictGet cfg "api_type"
      let v ← dictGet cfg "api_version"
      let e ← dictGet cfg "aoai_endpoint"
      let d ← dictGet cfg "aoai_deploy"
      let base := [("api_type", t), ("api_version", v), ("base_url", e), ("model", d)]
      if s.oai_auth_type = "use_azure_openai_api_key" then do
        let k ← dictGet cfg "aoai_key"
        pure (.dict [("config_list", .list [.dict (base ++ [("api_key", k)])]),
                     ("cache_seed", .pynone)])
      else do
        let p ← dictGet cfg "azure_ad_token_provider"
        pure (.dict [("config_list", .list [.dict (base ++ [("azure_ad_token_provider", p)])]),
                     ("cache_seed", .pynone)])
    else pure .pynone, s)

/-- OAIConfig.get_custom_autogen_config: unconditionally subscripts the result
of get_default_autogen_config with the key config_list, then wraps it with the
hyperparameter arguments and a disabled-cache marker. -/
def get_custom_autogen_config (s : State)
    (seed temperature max_tokens timeout : PyVal) : Except PyErr PyVal × State :=
  let r := get_default_autogen_config s
  ((do
      let dflt ← r.1
      let cl ← subscriptVal dflt "config_list"
      pure (.dict [("config_list", cl), ("seed", seed), ("temperature", temperature),
                   ("max_tokens", max_tokens), ("timeout", timeout), ("cache_seed", .pynone)])),
   r.2)

end OAIConfig

/-! Concrete fixtures used by witnesses and counterexamples. -/

/-- A concrete environment-variable table with distinct values per variable. -/
def testEnvList : List (String × String) :=
  [("OPENAI_API_KEY", "dk"), ("OPENAI_API_MODEL", "dm"), ("OPENAI_API_VERSION", "dv"),
   ("AZURE_OPENAI_API_KEY", "zk"), ("AZURE_OPENAI_API_BASE", "zb"),
   ("AZURE_OPENAI_API_DEPLOY", "zd")]

/-- A concrete environment whose auth-mode selector holds the given value. -/
def testEnv (mode : Option String) : Env :=
  ⟨fun k => if k = "OPENAI_AUTH_TYPE" then mode
            else (testEnvList.find? (fun p => p.1 == k)).map Prod.snd,
   "tok"⟩

/-- The all-absent constructor overrides. -/
def oNone : Overrides := ⟨none, none, none, none, none⟩

/-- The resolved-credentials dictionary of an instance (empty when the
oai_config attribute was never assigned). -/
def credentials (s : OAIConfig.State) : List (String × PyVal) :=
  s.oai_config.getD []

/-- Extracts the dictionary from a successful accessor result (empty on error
or on a non-dictionary result). -/
def okDict : Except PyErr PyVal → List (String × PyVal)
  | .ok (.dict d) => d
  | _ => []

/-- Override-precedence for one credential field, as amended: a non-empty
constructor override wins; an absent or empty override falls back to the
environment-variable value. -/
def overrideResolves (cfg : List (String × PyVal)) (k : String)
    (ov envval : Option String) : Prop :=
  (∀ v, ov = some v → v ≠ "" → dictLookup cfg k = some (.str v)) ∧
  ((ov = none ∨ ov = some "") → dictLookup cfg k = some (ostr envval))

/-! Helper lemmas: the shape of the state produced by __init__ in each mode. -/

theorem init_direct (env : Env) (o : Overrides)
    (h : OAIConfig.resolveAuthType env = "use_openai_api_key") :
    OAIConfig.init env o =
      ⟨"use_openai_api_key",
       some [("oai_key", ostr (env.getenv "OPENAI_API_KEY")),
             ("oai_model", ostr (env.getenv "OPENAI_API_MODEL")),
             ("oai_version", ostr (env.getenv "OPENAI_API_VERSION"))]⟩ := by
  simp [OAIConfig.init, h]

theorem init_azure (env : Env) (o : Overrides)
    (h : OAIConfig.resolveAuthType env = "use_azure_openai_api_key") :
    OAIConfig.init env o =
      ⟨"use_azure_openai_api_key",
       some [("api_type", .str "azure"),
             ("api_version", ostr (strOr o.api_version (env.getenv "OPENAI_API_VERSION"))),
             ("aoai_key", ostr (strOr o.api_key (env.getenv "AZURE_OPENAI_API_KEY"))),
             ("aoai_endpoint", ostr (strOr o.endpoint_url (env.getenv "AZURE_OPENAI_API_BASE"))),
             ("aoai_deploy", ostr (strOr o.model_name (env.getenv "AZURE_OPENAI_API_DEPLOY")))]⟩ := by
  simp [OAIConfig.init, h]

theorem init_mi (env : Env) (o : Overrides)
    (h : OAIConfig.resolveAuthType env = "use_azure_managed_identity") :
    OAIConfig.init env o =
      ⟨"use_azure_managed_identity",
       some [("api_type", .str "azure"),
             ("api_version", ostr (strOr o.api_version (env.getenv "OPENAI_API_VERSION"))),
             ("azure_ad_token_provider", OAIConfig._get_bearer_token_provider env),
             ("aoai_endpoint", ostr (strOr o.endpoint_url (env.getenv "AZURE_OPENAI_API_BASE"))),
             ("aoai_deploy", ostr (strOr o.model_name (env.getenv "AZURE_OPENAI_API_DEPLOY")))]⟩ := by
  simp [OAIConfig.init, h]

theorem init_unrecognized (env : Env) (o : Overrides)
    (h1 : OAIConfig.resolveAuthType env ≠ "use_openai_api_key")
    (h2 : OAIConfig.resolveAuthType env ≠ "use_azure_openai_api_key")
    (h3 : OAIConfig.resolveAuthType env ≠ "use_azure_managed_identity") :
    OAIConfig.init env o = ⟨OAIConfig.resolveAuthType env, none⟩ := by
  simp [OAIConfig.init, h1, h2, h3]

/-- C9: the auth mode and resolved credentials are fixed at construction:
get_config, get_default_autogen_config and get_custom_autogen_config all
return the instance state unchanged, so exactly one mode stays active for the
lifetime of the instance and repeated calls observe the same state. -/
theorem accessors_preserve_state (s : OAIConfig.State) (a b c d : PyVal) :
    (OAIConfig.get_config s).2 = s ∧
    (OAIConfig.get_default_autogen_config s).2 = s ∧
    (OAIConfig.get_custom_autogen_config s a b c d).2 = s :=
  ⟨rfl, rfl, rfl⟩

/-- C5: when the auth-mode selector environment variable is absent or empty,
the instance auth mode is the cloud-api-key mode (use_azure_openai_api_key),
and every accessor leaves the mode as set at construction — the mode is
selected exactly once, at construction time. -/
theorem default_auth_mode (env : Env) (o : Overrides) (a b c d : PyVal)
    (h : env.getenv "OPENAI_AUTH_TYPE" = none ∨
         env.getenv "OPENAI_AUTH_TYPE" = some "") :
    (OAIConfig.init env o).oai_auth_type = "use_azure_openai_api_key" ∧
    ((OAIConfig.get_config (OAIConfig.init env o)).2).oai_auth_type =
      "use_azure_openai_api_key" ∧
    ((OAIConfig.get_default_autogen_config (OAIConfig.init env o)).2).oai_auth_type =
      "use_azure_openai_api_key" ∧
    ((OAIConfig.get_custom_autogen_config (OAIConfig.init env o) a b c d).2).oai_auth_type =
      "use_azure_openai_api_key" := by
  have ha : OAIConfig.resolveAuthType env = "use_azure_openai_api_key" := by
    rcases h with h | h <;> simp [OAIConfig.resolveAuthType, pyOrStr, h]
  rw [init_azure env o ha]
  exact ⟨rfl, rfl, rfl, rfl⟩

/-- Witness for C5 at a concrete environment with the selector absent. -/
theorem default_auth_mode_witness :
    (OAIConfig.init (testEnv none) oNone).oai_auth_type =
      "use_azure_openai_api_key" ∧
    ((OAIConfig.get_config (OAIConfig.init (testEnv none) oNone)).2).oai_auth_type =
      "use_azure_openai_api_key" ∧
    ((OAIConfig.get_default_autogen_config (OAIConfig.init (testEnv none) oNone)).2).oai_auth_type =
      "use_azure_openai_api_key" ∧
    ((OAIConfig.get_custom_autogen_config (OAIConfig.init (testEnv none) oNone)
        .pynone .pynone .pynone .pynone).2).oai_auth_type =
      "use_azure_openai_api_key" :=
  default_auth_mode (testEnv none) oNone .pynone .pynone .pynone .pynone (Or.inl rfl)

/-- C4: in direct-api-key mode the resolved credentials come exclusively from
environment variables, and any two choices of constructor overrides yield the
identical instance state. -/
theorem direct_mode_ignores_overrides (env : Env) (o o2 : Overrides)
    (h : OAIConfig.resolveAuthType env = "use_openai_api_key") :
    (OAIConfig.init env o).oai_config =
      some [("oai_key", ostr (env.getenv "OPENAI_API_KEY")),
            ("oai_model", ostr (env.getenv "OPENAI_API_MODEL")),
            ("oai_version", ostr (env.getenv "OPENAI_API_VERSION"))] ∧
    OAIConfig.init env o = OAIConfig.init env o2 := by
  rw [init_direct env o h, init_direct env o2 h]
  exact ⟨rfl, rfl⟩

/-- Witness for C4: in a concrete direct-mode environment, all-absent
overrides and all-present overrides produce the same state. -/
theorem direct_mode_ignores_overrides_witness :
    (OAIConfig.init (testEnv (some "use_openai_api_key")) oNone).oai_config =
      some [("oai_key", ostr ((testEnv (some "use_openai_api_key")).getenv "OPENAI_API_KEY")),
            ("oai_model", ostr ((testEnv (some "use_openai_api_key")).getenv "OPENAI_API_MODEL")),
            ("oai_version", ostr ((testEnv (some "use_openai_api_key")).getenv "OPENAI_API_VERSION"))] ∧
    OAIConfig.init (testEnv (some "use_openai_api_key")) oNone =
      OAIConfig.init (testEnv (some "use_openai_api_key"))
        ⟨some "cf", some "k", some "v", some "e", some "m"⟩ :=
  direct_mode_ignores_overrides (testEnv (some "use_openai_api_key")) oNone
    ⟨some "cf", some "k", some "v", some "e", some "m"⟩ rfl

/-- C10: in direct-api-key mode the default orchestrator configuration holds
only a model name, so get_custom_autogen_config, which subscripts it with the
config_list key, always fails with a missing-key (KeyError) error. -/
theorem direct_mode_custom_config_key_error (env : Env) (o : Overrides)
    (a b c d : PyVal)
    (h : OAIConfig.resolveAuthType env = "use_openai_api_key") :
    (OAIConfig.get_default_autogen_config (OAIConfig.init env o)).1 =
      .ok (.dict [("model", ostr (env.getenv "OPENAI_API_MODEL"))]) ∧
    (OAIConfig.get_custom_autogen_config (OAIConfig.init env o) a b c d).1 =
      .error (.keyErr "config_list") := by
  rw [init_direct env o h]
  exact ⟨rfl, rfl⟩

/-- Witness for C10 at a concrete direct-mode environment. -/
theorem direct_mode_custom_config_key_error_witness :
    (OAIConfig.get_default_autogen_config
        (OAIConfig.init (testEnv (some "use_openai_api_key")) oNone)).1 =
      .ok (.dict [("model", ostr ((testEnv (some "use_openai_api_key")).getenv "OPENAI_API_MODEL"))]) ∧
    (OAIConfig.get_custom_autogen_config
        (OAIConfig.init (testEnv (some "use_openai_api_key")) oNone)
        .pynone .pynone .pynone .pynone).1 =
      .error (.keyErr "config_list") :=
  direct_mode_custom_config_key_error (testEnv (some "use_openai_api_key")) oNone
    .pynone .pynone .pynone .pynone rfl

/-- C2: for an instance whose auth-mode string matches none of the three
recognized modes, get_config returns the empty dictionary,
get_default_autogen_config returns None, and get_custom_autogen_config —
which unconditionally subscripts that None — fails with the invalid-index
(not-subscriptable) error. -/
theorem unrecognized_mode_behavior (env : Env) (o : Overrides) (a b c d : PyVal)
    (h1 : OAIConfig.resolveAuthType env ≠ "use_openai_api_key")
    (h2 : OAIConfig.resolveAuthType env ≠ "use_azure_openai_api_key")
    (h3 : OAIConfig.resolveAuthType env ≠ "use_azure_managed_identity") :
    (OAIConfig.get_config (OAIConfig.init env o)).1 = .ok (.dict []) ∧
    (OAIConfig.get_default_autogen_config (OAIConfig.init env o)).1 = .ok .pynone ∧
    (OAIConfig.get_custom_autogen_config (OAIConfig.init env o) a b c d).1 =
      .error .notSubscriptable := by
  rw [init_unrecognized env o h1 h2 h3]
  refine ⟨?_, ?_, ?_⟩ <;>
    simp [OAIConfig.get_config, OAIConfig.get_default_autogen_config,
          OAIConfig.get_custom_autogen_config, subscriptVal, pure, Except.pure,
          bind, Except.bind, h1, h2, h3]

/-- Witness for C2 at a concrete environment with an unrecognized selector. -/
theorem unrecognized_mode_behavior_witness :
    (OAIConfig.get_config (OAIConfig.init (testEnv (some "bogus")) oNone)).1 =
      .ok (.dict []) ∧
    (OAIConfig.get_default_autogen_config
        (OAIConfig.init (testEnv (some "bogus")) oNone)).1 = .ok .pynone ∧
    (OAIConfig.get_custom_autogen_config (OAIConfig.init (testEnv (some "bogus")) oNone)
        .pynone .pynone .pynone .pynone).1 = .error .notSubscriptable :=
  unrecognized_mode_behavior (testEnv (some "bogus")) oNone
    .pynone .pynone .pynone .pynone
    (by decide) (by decide) (by decide)

theorem overrideResolves_of_lookup (cfg : List (String × PyVal)) (k : String)
    (ov ev : Option String)
    (hl : dictLookup cfg k = some (ostr (strOr ov ev))) :
    overrideResolves cfg k ov ev := by
  constructor
  · intro v hv hne
    rw [hl, hv]
    simp [strOr, truthy, ostr, hne]
  · intro hcase
    rw [hl]
    rcases hcase with h | h <;> simp [strOr, truthy, h]

/-- Counterexample to C3 as stated: with a supplied — but empty — api_key
override and the key environment variable set, the stored key equals the
environment value, not the supplied override. -/
theorem override_precedence_cex :
    (⟨none, some "", none, none, none⟩ : Overrides).api_key = some "" ∧
    (testEnv none).getenv "AZURE_OPENAI_API_KEY" = some "zk" ∧
    dictLookup (credentials (OAIConfig.init (testEnv none)
        ⟨none, some "", none, none, none⟩)) "aoai_key" = some (.str "zk") ∧
    dictLookup (credentials (OAIConfig.init (testEnv none)
        ⟨none, some "", none, none, none⟩)) "aoai_key" ≠ some (.str "") := by
  refine ⟨rfl, rfl, rfl, fun hx => ?_⟩
  have hx2 : some (PyVal.str "zk") = some (PyVal.str "") := hx
  injection hx2 with hx3
  injection hx3 with hx4
  exact absurd hx4 (by decide)

/-- C3 as amended: in cloud-api-key mode — and for the shared fields of
cloud-managed-identity mode — each credential field equals the constructor
override when a non-empty one is supplied, and otherwise (override absent or
empty) equals the corresponding environment-variable value. -/
theorem override_precedence (env : Env) (o : Overrides)
    (h : OAIConfig.resolveAuthType env = "use_azure_openai_api_key" ∨
         OAIConfig.resolveAuthType env = "use_azure_managed_identity") :
    overrideResolves (credentials (OAIConfig.init env o)) "api_version"
      o.api_version (env.getenv "OPENAI_API_VERSION") ∧
    overrideResolves (credentials (OAIConfig.init env o)) "aoai_endpoint"
      o.endpoint_url (env.getenv "AZURE_OPENAI_API_BASE") ∧
    overrideResolves (credentials (OAIConfig.init env o)) "aoai_deploy"
      o.model_name (env.getenv "AZURE_OPENAI_API_DEPLOY") ∧
    (OAIConfig.resolveAuthType env = "use_azure_openai_api_key" →
      overrideResolves (credentials (OAIConfig.init env o)) "aoai_key"
        o.api_key (env.getenv "AZURE_OPENAI_API_KEY")) := by
  rcases h with h | h
  · rw [init_azure env o h]
    exact ⟨overrideResolves_of_lookup _ _ _ _ rfl,
           overrideResolves_of_lookup _ _ _ _ rfl,
           overrideResolves_of_lookup _ _ _ _ rfl,
           fun _ => overrideResolves_of_lookup _ _ _ _ rfl⟩
  · rw [init_mi env o h]
    refine ⟨overrideResolves_of_lookup _ _ _ _ rfl,
            overrideResolves_of_lookup _ _ _ _ rfl,
            overrideResolves_of_lookup _ _ _ _ rfl,
            fun hk => ?_⟩
    rw [h] at hk
    exact absurd hk (by decide)

/-- Witness for the amended C3 at a concrete input: a non-empty model-name
and key override win; an empty api-version override falls back to the
environment. -/
theorem override_precedence_witness :
    dictLookup (credentials (OAIConfig.init (testEnv none)
        ⟨none, some "k2", some "", none, some "m2"⟩)) "aoai_key" =
      some (.str "k2") ∧
    dictLookup (credentials (OAIConfig.init (testEnv none)
        ⟨none, some "k2", some "", none, some "m2"⟩)) "api_version" =
      some (.str "dv") ∧
    dictLookup (credentials (OAIConfig.init (testEnv none)
        ⟨none, some "k2", some "", none, some "m2"⟩)) "aoai_deploy" =
      some (.str "m2") := by
  have h := override_precedence (testEnv none)
    ⟨none, some "k2", some "", none, some "m2"⟩ (Or.inl rfl)
  exact ⟨(h.2.2.2 rfl).1 "k2" rfl (by decide),
         h.1.2 (Or.inr rfl),
         (h.2.2.1).1 "m2" rfl (by decide)⟩

/-- C1 (against the code as written): in cloud-managed-identity mode the
constructor stores, under the azure_ad_token_provider field, the token value
produced by calling the bearer-token provider — the trailing call parentheses
in _get_bearer_token_provider — and not the provider callable itself. -/
theorem managed_identity_stores_token_value (env : Env) (o : Overrides)
    (h : OAIConfig.resolveAuthType env = "use_azure_managed_identity") :
    dictLookup (credentials (OAIConfig.init env o)) "azure_ad_token_provider" =
      some (PyVal.str env.bearerToken) ∧
    dictLookup (credentials (OAIConfig.init env o)) "azure_ad_token_provider" ≠
      some OAIConfig.identityProviderCallable := by
  rw [init_mi env o h]
  refine ⟨rfl, fun hx => ?_⟩
  have hx2 : some (PyVal.str env.bearerToken) = some PyVal.callable := hx
  injection hx2 with hx3
  exact PyVal.noConfusion hx3

/-- Witness for C1: at a concrete managed-identity environment the stored
field is the token string, not the callable. -/
theorem managed_identity_stores_token_value_witness :
    dictLookup (credentials (OAIConfig.init
        (testEnv (some "use_azure_managed_identity")) oNone))
      "azure_ad_token_provider" = some (PyVal.str "tok") ∧
    dictLookup (credentials (OAIConfig.init
        (testEnv (some "use_azure_managed_identity")) oNone))
      "azure_ad_token_provider" ≠ some OAIConfig.identityProviderCallable :=
  managed_identity_stores_token_value (testEnv (some "use_azure_managed_identity"))
    oNone rfl

/-- C6: get_default_autogen_config returns, in direct-api-key mode, a mapping
holding only the model name; in either cloud mode, a mapping whose config_list
holds exactly one entry with API type, API version, endpoint and deployment,
plus the static key (cloud-api-key mode) or the stored token-provider field
(cloud-managed-identity mode), together with a disabled-cache marker. -/
theorem default_autogen_config_shape (env : Env) (o : Overrides) :
    (OAIConfig.resolveAuthType env = "use_openai_api_key" →
      (OAIConfig.get_default_autogen_config (OAIConfig.init env o)).1 =
        .ok (.dict [("model", ostr (env.getenv "OPENAI_API_MODEL"))])) ∧
    (OAIConfig.resolveAuthType env = "use_azure_openai_api_key" →
      (OAIConfig.get_default_autogen_config (OAIConfig.init env o)).1 =
        .ok (.dict
          [("config_list", .list [.dict
              [("api_type", .str "azure"),
               ("api_version", ostr (strOr o.api_version (env.getenv "OPENAI_API_VERSION"))),
               ("base_url", ostr (strOr o.endpoint_url (env.getenv "AZURE_OPENAI_API_BASE"))),
               ("model", ostr (strOr o.model_name (env.getenv "AZURE_OPENAI_API_DEPLOY"))),
               ("api_key", ostr (strOr o.api_key (env.getenv "AZURE_OPENAI_API_KEY")))]]),
           ("cache_seed", .pynone)])) ∧
    (OAIConfig.resolveAuthType env = "use_azure_managed_identity" →
      (OAIConfig.get_default_autogen_config (OAIConfig.init env o)).1 =
        .ok (.dict
          [("config_list", .list [.dict
              [("api_type", .str "azure"),
               ("api_version", ostr (strOr o.api_version (env.getenv "OPENAI_API_VERSION"))),
               ("base_url", ostr (strOr o.endpoint_url (env.getenv "AZURE_OPENAI_API_BASE"))),
               ("model", ostr (strOr o.model_name (env.getenv "AZURE_OPENAI_API_DEPLOY"))),
               ("azure_ad_token_provider", OAIConfig._get_bearer_token_provider env)]]),
           ("cache_seed", .pynone)])) := by
  refine ⟨fun h => ?_, fun h => ?_, fun h => ?_⟩
  · rw [init_direct env o h]; rfl
  · rw [init_azure env o h]; rfl
  · rw [init_mi env o h]; rfl

/-- Witness for C6: concrete evaluations in all three recognized modes. -/
theorem default_autogen_config_shape_witness :
    (OAIConfig.get_default_autogen_config (OAIConfig.init
        (testEnv (some "use_openai_api_key")) oNone)).1 =
      .ok (.dict [("model", .str "dm")]) ∧
    (OAIConfig.get_default_autogen_config (OAIConfig.init (testEnv none) oNone)).1 =
      .ok (.dict
        [("config_list", .list [.dict
            [("api_type", .str "azure"), ("api_version", .str "dv"),
             ("base_url", .str "zb"), ("model", .str "zd"),
             ("api_key", .str "zk")]]),
         ("cache_seed", .pynone)]) ∧
    (OAIConfig.get_default_autogen_config (OAIConfig.init
        (testEnv (some "use_azure_managed_identity")) oNone)).1 =
      .ok (.dict
        [("config_list", .list [.dict
            [("api_type", .str "azure"), ("api_version", .str "dv"),
             ("base_url", .str "zb"), ("model", .str "zd"),
             ("azure_ad_token_provider", .str "tok")]]),
         ("cache_seed", .pynone)]) :=
  ⟨(default_autogen_config_shape (testEnv (some "use_openai_api_key")) oNone).1 rfl,
   (default_autogen_config_shape (testEnv none) oNone).2.1 rfl,
   (default_autogen_config_shape (testEnv (some "use_azure_managed_identity")) oNone).2.2 rfl⟩

/-- Counterexample to C7 as stated: the provider type tag is the string oai in
direct mode and aoai in cloud mode — not the strings direct and cloud. -/
theorem get_config_type_tag_cex :
    dictLookup (okDict (OAIConfig.get_config (OAIConfig.init
        (testEnv (some "use_openai_api_key")) oNone)).1) "type" =
      some (.str "oai") ∧
    dictLookup (okDict (OAIConfig.get_config (OAIConfig.init
        (testEnv (some "use_openai_api_key")) oNone)).1) "type" ≠
      some (.str "direct") ∧
    dictLookup (okDict (OAIConfig.get_config (OAIConfig.init
        (testEnv none) oNone)).1) "type" = some (.str "aoai") ∧
    dictLookup (okDict (OAIConfig.get_config (OAIConfig.init
        (testEnv none) oNone)).1) "type" ≠ some (.str "cloud") := by
  refine ⟨rfl, fun hx => ?_, rfl, fun hy => ?_⟩
  · have hx2 : some (PyVal.str "oai") = some (PyVal.str "direct") := hx
    injection hx2 with h3
    injection h3 with h4
    exact absurd h4 (by decide)
  · have hy2 : some (PyVal.str "aoai") = some (PyVal.str "cloud") := hy
    injection hy2 with h3
    injection h3 with h4
    exact absurd h4 (by decide)

/-- C7 as amended: in every recognized mode get_config returns a shaped
mapping whose provider type tag is oai for the direct mode and aoai for the
two cloud modes, with the mode-relevant fields (model, key, version for the
direct mode; endpoint, version, and key or token-provider field nested under
aoai_args, plus the deployment name, for the cloud modes). -/
theorem get_config_shape (env : Env) (o : Overrides) :
    (OAIConfig.resolveAuthType env = "use_openai_api_key" →
      (OAIConfig.get_config (OAIConfig.init env o)).1 =
        .ok (.dict [("type", .str "oai"),
                    ("model", ostr (env.getenv "OPENAI_API_MODEL")),
                    ("api_key", ostr (env.getenv "OPENAI_API_KEY")),
                    ("api_version", ostr (env.getenv "OPENAI_API_VERSION"))])) ∧
    (OAIConfig.resolveAuthType env = "use_azure_openai_api_key" →
      (OAIConfig.get_config (OAIConfig.init env o)).1 =
        .ok (.dict [("type", .str "aoai"),
                    ("aoai_args", .dict
                      [("azure_endpoint", ostr (strOr o.endpoint_url (env.getenv "AZURE_OPENAI_API_BASE"))),
                       ("api_version", ostr (strOr o.api_version (env.getenv "OPENAI_API_VERSION"))),
                       ("api_key", ostr (strOr o.api_key (env.getenv "AZURE_OPENAI_API_KEY")))]),
                    ("model", ostr (strOr o.model_name (env.getenv "AZURE_OPENAI_API_DEPLOY")))])) ∧
    (OAIConfig.resolveAuthType env = "use_azure_managed_identity" →
      (OAIConfig.get_config (OAIConfig.init env o)).1 =
        .ok (.dict [("type", .str "aoai"),
                    ("aoai_args", .dict
                      [("azure_endpoint", ostr (strOr o.endpoint_url (env.getenv "AZURE_OPENAI_API_BASE"))),
                       ("api_version", ostr (strOr o.api_version (env.getenv "OPENAI_API_VERSION"))),
                       ("azure_ad_token_provider", OAIConfig._get_bearer_token_provider env)]),
                    ("model", ostr (strOr o.model_name (env.getenv "AZURE_OPENAI_API_DEPLOY")))])) := by
  refine ⟨fun h => ?_, fun h => ?_, fun h => ?_⟩
  · rw [init_direct env o h]; rfl
  · rw [init_azure env o h]; rfl
  · rw [init_mi env o h]; rfl

/-- Witness for the amended C7: concrete evaluations in all three modes. -/
theorem get_config_shape_witness :
    (OAIConfig.get_config (OAIConfig.init
        (testEnv (some "use_openai_api_key")) oNone)).1 =
      .ok (.dict [("type", .str "oai"), ("model", .str "dm"),
                  ("api_key", .str "dk"), ("api_version", .str "dv")]) ∧
    (OAIConfig.get_config (OAIConfig.init (testEnv none) oNone)).1 =
      .ok (.dict [("type", .str "aoai"),
                  ("aoai_args", .dict
                    [("azure_endpoint", .str "zb"), ("api_version", .str "dv"),
                     ("api_key", .str "zk")]),
                  ("model", .str "zd")]) ∧
    (OAIConfig.get_config (OAIConfig.init
        (testEnv (some "use_azure_managed_identity")) oNone)).1 =
      .ok (.dict [("type", .str "aoai"),
                  ("aoai_args", .dict
                    [("azure_endpoint", .str "zb"), ("api_version", .str "dv"),
                     ("azure_ad_token_provider", .str "tok")]),
                  ("model", .str "zd")]) :=
  ⟨(get_config_shape (testEnv (some "use_openai_api_key")) oNone).1 rfl,
   (get_config_shape (testEnv none) oNone).2.1 rfl,
   (get_config_shape (testEnv (some "use_azure_managed_identity")) oNone).2.2 rfl⟩

/-- C8: construction never raises on missing configuration: in every
recognized mode, with every consulted environment variable and every override
absent, __init__ still produces a state, and each environment-derived
credential field holds the absent value None. -/
theorem absent_values_pass_through (g : String → Option String) (tok : String)
    (o : Overrides)
    (hg : ∀ k, k ≠ "OPENAI_AUTH_TYPE" → g k = none)
    (ho : o.api_key = none ∧ o.api_version = none ∧
          o.endpoint_url = none ∧ o.model_name = none) :
    (g "OPENAI_AUTH_TYPE" = some "use_openai_api_key" →
      OAIConfig.init ⟨g, tok⟩ o =
        ⟨"use_openai_api_key",
         some [("oai_key", .pynone), ("oai_model", .pynone),
               ("oai_version", .pynone)]⟩) ∧
    ((g "OPENAI_AUTH_TYPE" = none ∨
      g "OPENAI_AUTH_TYPE" = some "use_azure_openai_api_key") →
      OAIConfig.init ⟨g, tok⟩ o =
        ⟨"use_azure_openai_api_key",
         some [("api_type", .str "azure"), ("api_version", .pynone),
               ("aoai_key", .pynone), ("aoai_endpoint", .pynone),
               ("aoai_deploy", .pynone)]⟩) ∧
    (g "OPENAI_AUTH_TYPE" = some "use_azure_managed_identity" →
      OAIConfig.init ⟨g, tok⟩ o =
        ⟨"use_azure_managed_identity",
         some [("api_type", .str "azure"), ("api_version", .pynone),
               ("azure_ad_token_provider", .str tok),
               ("aoai_endpoint", .pynone), ("aoai_deploy", .pynone)]⟩) := by
  obtain ⟨h1, h2, h3, h4⟩ := ho
  have e1 : g "OPENAI_API_KEY" = none := hg _ (by decide)
  have e2 : g "OPENAI_API_MODEL" = none := hg _ (by decide)
  have e3 : g "OPENAI_API_VERSION" = none := hg _ (by decide)
  have e4 : g "AZURE_OPENAI_API_KEY" = none := hg _ (by decide)
  have e5 : g "AZURE_OPENAI_API_BASE" = none := hg _ (by decide)
  have e6 : g "AZURE_OPENAI_API_DEPLOY" = none := hg _ (by decide)
  refine ⟨fun hm => ?_, fun hm => ?_, fun hm => ?_⟩
  · rw [init_direct ⟨g, tok⟩ o
      (by simp [OAIConfig.resolveAuthType, pyOrStr, hm])]
    simp [e1, e2, e3, ostr]
  · have ha : OAIConfig.resolveAuthType ⟨g, tok⟩ = "use_azure_openai_api_key" := by
      rcases hm with hm | hm <;> simp [OAIConfig.resolveAuthType, pyOrStr, hm]
    rw [init_azure ⟨g, tok⟩ o ha]
    simp [e3, e4, e5, e6, h1, h2, h3, h4, strOr, truthy, ostr]
  · rw [init_mi ⟨g, tok⟩ o
      (by simp [OAIConfig.resolveAuthType, pyOrStr, hm])]
    simp [e3, e5, e6, h2, h3, h4, strOr, truthy, ostr,
          OAIConfig._get_bearer_token_provider, OAIConfig.callBearerTokenProvider]

/-- Witness for C8 at the everything-absent environment. -/
theorem absent_values_pass_through_witness :
    OAIConfig.init ⟨fun _ => none, "tok"⟩ oNone =
      ⟨"use_azure_openai_api_key",
       some [("api_type", .str "azure"), ("api_version", .pynone),
             ("aoai_key", .pynone), ("aoai_endpoint", .pynone),
             ("aoai_deploy", .pynone)]⟩ :=
  (absent_values_pass_through (fun _ => none) "tok" oNone
    (fun _ _ => rfl) ⟨rfl, rfl, rfl, rfl⟩).2.1 (Or.inl rfl)

end AILearning
